import Mathlib

/-!
# Verification of `project_builder.py`

A shallow embedding of the project-scaffolding utility in
`src/project_builder.py`, together with proofs of the behavioural
properties claimed by its specification.

The program is a linear pipeline: it parses a YAML document into a
configuration, walks the declared `directories` tree as a mutable stack
(popping from the end, pushing renamed children), performs filesystem
side effects (directory creation, placeholder-file creation), and finally
renders a logging-configuration template.

The embedding models:
- the filesystem as a set of directory paths plus an association list of
  file paths to contents (`FS`),
- printed output as an accumulated list of lines (`World.out`),
- an unhandled Python exception as an error message carried next to the
  state reached so far (`RunResult.error`), since Python side effects
  performed before an exception persist,
- the `while` loop of `main` as a fuel-indexed recursion
  (`runStackFuel` / `processStackFuel`); the fuel is instantiated with the
  total node count of the stack, which the loop decreases by exactly one
  per iteration, so the fuel bound is never hit.

String paths are manipulated with character-list helpers (`splitSlash`,
`joinSlash`) that model the relative-path behaviour of `os.path` used by
the script; all definitions are computable so that concrete runs can be
evaluated inside proofs.
-/

namespace ProjectBuilder

/-- One entry of the `directories` tree of the YAML document: a `name`,
a `type` string (the script compares it against `"directory"` and
`"file"`), and an optional `children` list (`none` models the `children`
key being absent from the mapping). -/
inductive Node where
  | mk (name : String) (type : String) (children : Option (List Node))

/-- The `name` field of a node. -/
def Node.name : Node → String
  | .mk n _ _ => n

/-- The `type` field of a node. -/
def Node.type : Node → String
  | .mk _ t _ => t

/-- The `children` field of a node (`none` when the key is absent). -/
def Node.children : Node → Option (List Node)
  | .mk _ _ c => c

mutual

/-- Total number of nodes in a tree (the node itself plus all
descendants).  Used as the fuel bound for the work-stack loop. -/
def nodeSize : Node → Nat
  | .mk _ _ cs => optSize cs + 1

/-- Total number of nodes below an optional children list. -/
def optSize : Option (List Node) → Nat
  | none => 0
  | some l => listSize l

/-- Total number of nodes in a forest. -/
def listSize : List Node → Nat
  | [] => 0
  | c :: cs => nodeSize c + listSize cs

end

/-- `d["name"] = f"{name}/{sub_name}"` from `main`: prefix a child's name
with its parent's (already flattened) name, joined by a single slash. -/
def renameNode (p : String) : Node → Node
  | .mk n t c => .mk (p ++ "/" ++ n) t c

/-- The mutation `main` applies to each element of a popped node's
`children` list before re-inserting it into the stack. -/
def renameChildren (p : String) (cs : List Node) : List Node :=
  cs.map (renameNode p)

/-- The list of nodes `main` appends to the work stack when processing a
node: its children renamed with the parent prefix, in declaration order
(nothing when the `children` key is absent). -/
def childPush (d : Node) : List Node :=
  match d.children with
  | none => []
  | some cs => renameChildren d.name cs

/-- A filesystem-creation call made by the `main` loop.  `createDir p`
records `create_directory(p)` (the script passes `f"./{name}"`);
`createFile p` records `create_empty_file(p)` (the script passes the
flattened name unchanged). -/
inductive FsAction where
  | createDir (path : String)
  | createFile (path : String)
deriving DecidableEq

/-- The creation call the loop body issues for a node with flattened name
`full` and type string `ty`: mirrors the
`if type == "directory" / elif type == "file" / (else: nothing)`
branching of `main`. -/
def actOfFull (full ty : String) : List FsAction :=
  if ty == "directory" then [FsAction.createDir ("./" ++ full)]
  else if ty == "file" then [FsAction.createFile full]
  else []

/-- The creation call issued for a popped node. -/
def actOf (d : Node) : List FsAction :=
  actOfFull d.name d.type

/-- The `while len(directories) > 0` loop of `main`, restricted to its
stack discipline and the sequence of creation calls it issues:
pop the last node, append its renamed children, emit the node's own
creation call.  Fuel-indexed; `processStack` supplies sufficient fuel. -/
def processStackFuel : Nat → List Node → List FsAction
  | 0, _ => []
  | f + 1, s =>
    match s.getLast? with
    | none => []
    | some d => actOf d ++ processStackFuel f (s.dropLast ++ childPush d)

/-- The sequence of creation calls the `main` loop issues for an initial
work stack `s` (the spec's `directories` sequence, in declared order). -/
def processStack (s : List Node) : List FsAction :=
  processStackFuel (listSize s) s

mutual

/-- Declarative flattening semantics: the creation calls for one node
whose chain of ancestor names has been resolved into `pre`
(`none` for a top-level node).  The node's created path is the parent's
flattened name joined with its declared name by a single `"/"`, and the
same rule is applied recursively below it. -/
def flatTrace : Option String → Node → List FsAction
  | pre, .mk n t cs =>
    let full := match pre with
      | none => n
      | some p => p ++ "/" ++ n
    actOfFull full t ++ flatTraceOpt (some full) cs

/-- Flattening semantics of an optional children list. -/
def flatTraceOpt : Option String → Option (List Node) → List FsAction
  | _, none => []
  | pre, some l => flatTraceRev pre l

/-- Flattening semantics of a sibling list, processed in reverse
declaration order (last-in-first-out stack semantics). -/
def flatTraceRev : Option String → List Node → List FsAction
  | _, [] => []
  | pre, c :: rest => flatTraceRev pre rest ++ flatTrace pre c

end

/-! ## Filesystem model and path helpers -/

/-- Split a character list at every `'/'`. -/
def splitSlash : List Char → List (List Char)
  | [] => [[]]
  | c :: rest =>
    if c = '/' then [] :: splitSlash rest
    else
      match splitSlash rest with
      | [] => [[c]]
      | s :: ss => (c :: s) :: ss

/-- Join character lists with `'/'` between them. -/
def joinSlash : List (List Char) → List Char
  | [] => []
  | [s] => s
  | s :: rest => s ++ '/' :: joinSlash rest

/-- Canonical form of a relative path: a leading `"./"` (as produced by
`f"./{name}"` in `main`) denotes the current working directory and is
dropped, so that `"./configs/logging"` and `"configs/logging"` name the
same filesystem entry. -/
def normPath (p : String) : String :=
  match p.data with
  | '.' :: '/' :: rest => String.mk rest
  | _ => p

/-- `os.path.dirname` for the relative paths the script builds: the path
with its final `/`-separated segment removed, `""` when there is no
separator. -/
def dirname (p : String) : String :=
  let segs := splitSlash p.data
  if segs.length ≤ 1 then ""
  else String.mk (joinSlash segs.dropLast)

/-- All ancestor paths of `q` (including `q` itself), as created by
`os.makedirs`: for `"a/b/c"` the list `["a", "a/b", "a/b/c"]`. -/
def pathPrefixList (q : String) : List String :=
  let segs := splitSlash q.data
  (List.range segs.length).map (fun i => String.mk (joinSlash (segs.take (i + 1))))

/-- The filesystem: the set of existing directories and an association
list from file paths (canonical form) to file contents. -/
structure FS where
  dirs : List String
  files : List (String × String)
deriving DecidableEq

/-- Program state: the filesystem plus the lines printed so far. -/
structure World where
  fs : FS
  out : List String
deriving DecidableEq

/-- Result of running a (possibly failing) piece of the script:
the state reached, and `some msg` when an unhandled Python exception
`msg` was raised at that point (side effects already performed are kept,
as in Python). -/
structure RunResult where
  world : World
  error : Option String
deriving DecidableEq

/-- `os.path.isdir`. -/
def isdir (fs : FS) (p : String) : Bool :=
  fs.dirs.contains (normPath p)

/-- `os.path.isfile`. -/
def isfile (fs : FS) (p : String) : Bool :=
  (fs.files.lookup (normPath p)).isSome

/-- Write `content` at key `p`, overwriting an existing entry
(`open(p, "w")` truncates): any previous binding of `p` is removed and
the new one recorded. -/
def setFile (files : List (String × String)) (p content : String) : List (String × String) :=
  files.filter (fun kv => kv.1 != p) ++ [(p, content)]

/-- `create_directory` (lines 71-89 of the script): if the directory
already exists, print and abort the operation; otherwise
`os.makedirs(path, exist_ok=False)` creates the directory and every
missing intermediate, failing only when some ancestor exists as a file. -/
def create_directory (directory_path : String) (w : World) : RunResult :=
  if isdir w.fs directory_path then
    ⟨{ w with out := w.out ++ ["directory " ++ directory_path ++ " exists. operation aborted."] },
      none⟩
  else
    let pres := pathPrefixList (normPath directory_path)
    if pres.any (fun d => (w.fs.files.lookup d).isSome) then
      ⟨w, some ("FileExistsError: " ++ directory_path)⟩
    else
      ⟨{ fs := { dirs := w.fs.dirs ++ pres.filter (fun d => !w.fs.dirs.contains d),
                 files := w.fs.files },
         out := w.out ++ ["created directory " ++ directory_path ++ "."] }, none⟩

/-- `create_empty_file` (lines 92-111 of the script): if the file already
exists, print and abort the write; otherwise `open(path, "w")` creates it
with the single generated-comment line (raising when the path is an
existing directory or its parent directory is missing). -/
def create_empty_file (file_path : String) (w : World) : RunResult :=
  if isfile w.fs file_path then
    ⟨{ w with out := w.out ++ ["file " ++ file_path ++ " exists. operation aborted."] }, none⟩
  else if isdir w.fs file_path then
    ⟨w, some ("IsADirectoryError: " ++ file_path)⟩
  else if dirname file_path == "" || isdir w.fs (dirname file_path) then
    ⟨{ fs := { dirs := w.fs.dirs,
               files := setFile w.fs.files (normPath file_path) "# file automatically generated" },
       out := w.out ++ ["Created file ./" ++ file_path] }, none⟩
  else
    ⟨w, some ("FileNotFoundError: " ++ file_path)⟩

/-! ## String replacement and the logging-config emitter -/

/-- Python `str.replace` on character lists: scan left to right, replace
each leftmost non-overlapping occurrence of `pat`, and continue after the
inserted replacement (inserted text is not rescanned).  Fuel-indexed;
every step consumes at least one character, so fuel `s.length` suffices.
(The script only calls this with the two fixed non-empty placeholder
tokens, so the empty-pattern case is never exercised; it is modelled as
the identity.) -/
def replaceFuel : Nat → List Char → List Char → List Char → List Char
  | 0, s, _, _ => s
  | f + 1, s, pat, rep =>
    match s with
    | [] => []
    | c :: rest =>
      if pat.isPrefixOf (c :: rest) && !pat.isEmpty then
        rep ++ replaceFuel f ((c :: rest).drop pat.length) pat rep
      else c :: replaceFuel f rest pat rep

/-- Python `str.replace(pat, rep)` (all occurrences). -/
def pyReplace (s pat rep : String) : String :=
  String.mk (replaceFuel s.data.length s.data pat.data rep.data)

/-- The literal placeholder token `${LOG_FILE_PATH}`. -/
def tokLFP : String := "$\x7bLOG_FILE_PATH\x7d"

/-- The literal placeholder token `${ROOT_LOG_LEVEL}`. -/
def tokRLL : String := "$\x7bROOT_LOG_LEVEL\x7d"

/-- `setup_logging` (lines 114-152 of the script): read the template
`logging_config_template.json` (an unguarded `open`, fatal when the file
is missing), substitute `${LOG_FILE_PATH}` and then `${ROOT_LOG_LEVEL}`
by two successive `str.replace` calls, and — only if the directory
`configs/logging` exists — write the result to
`configs/logging/logging_config.json` and print a confirmation.  When the
directory does not exist nothing is written and nothing is printed. -/
def setup_logging (log_file_path root_log_level : String) (w : World) : RunResult :=
  match w.fs.files.lookup "logging_config_template.json" with
  | none => ⟨w, some "FileNotFoundError: logging_config_template.json"⟩
  | some template_content =>
    let templated :=
      pyReplace (pyReplace template_content tokLFP log_file_path) tokRLL root_log_level
    if isdir w.fs "configs/logging" then
      ⟨{ fs := { dirs := w.fs.dirs,
                 files := setFile w.fs.files "configs/logging/logging_config.json" templated },
         out := w.out ++ ["logging configuration saved at configs/logging/logging_config.json"] },
        none⟩
    else ⟨w, none⟩

/-! ## Parsed configuration and the `main` pipeline -/

/-- The `logging` mapping of the document. -/
structure LoggingSettings where
  root_log_level : String
  log_file_path : String
deriving DecidableEq

/-- The `project` mapping of the document (the version is kept as the
string the script interpolates into its printout). -/
structure ProjectMeta where
  name : String
  version : String
  description : String
deriving DecidableEq

/-- The parsed YAML document as `main` consumes it: `project` and
`directories` are accessed unconditionally, `logging` is a mapping whose
absence (`none`) makes the `config["logging"]` subscript raise
`KeyError`. -/
structure Config where
  project : ProjectMeta
  directories : List Node
  logging : Option LoggingSettings

/-- Outcome of `yaml.safe_load` on a file's content: a parsed document
(`none` for an empty/null document, which is falsy in `main`'s
`if config:` test) or a `yaml.YAMLError`. -/
inductive ParseOutcome where
  | parsed (doc : Option Config)
  | err (msg : String)

/-- `read_yaml_file` (lines 45-68 of the script), parameterised by the
YAML parser `parse` (the third-party `yaml.safe_load`): a missing file
and a parse error are both caught, reported with a printed message, and
turned into a `None` result; the function itself never raises. -/
def read_yaml_file (parse : String → ParseOutcome) (file_path : String) (w : World) :
    Option Config × World :=
  match w.fs.files.lookup file_path with
  | none =>
    (none, { w with out := w.out ++ ["Error: The file " ++ file_path ++ " was not found."] })
  | some content =>
    match parse content with
    | .err e => (none, { w with out := w.out ++ ["Error parsing YAML file: " ++ e] })
    | .parsed doc => (doc, w)

/-- The `while len(directories) > 0` loop of `main` over the full program
state: pop the last node, append its renamed children, then run the
node's creation call (directory / file / silently none), aborting the
whole loop when a call raises.  Fuel-indexed; `runStack` supplies
sufficient fuel. -/
def runStackFuel : Nat → List Node → World → RunResult
  | 0, _, w => ⟨w, none⟩
  | f + 1, s, w =>
    match s.getLast? with
    | none => ⟨w, none⟩
    | some d =>
      let s' := s.dropLast ++ childPush d
      if d.type == "directory" then
        let r := create_directory ("./" ++ d.name) w
        match r.error with
        | some _ => r
        | none => runStackFuel f s' r.world
      else if d.type == "file" then
        let r := create_empty_file d.name w
        match r.error with
        | some _ => r
        | none => runStackFuel f s' r.world
      else runStackFuel f s' w

/-- The materialization loop of `main`, run to completion from the
declared `directories` sequence. -/
def runStack (s : List Node) (w : World) : RunResult :=
  runStackFuel (listSize s) s w

/-- The five status lines `main` prints after a successful load. -/
def printHeader (cfg : Config) (w : World) : World :=
  { w with out := w.out ++
      ["Successfully loaded configuration:",
       "------------------------------",
       "Project name: " ++ cfg.project.name,
       "Project version: " ++ cfg.project.version,
       "Project description: " ++ cfg.project.description] }

/-- The body of `main` after `read_yaml_file` (lines 182-210 of the
script): a falsy config does nothing; otherwise print the header, run the
materialization loop, then read `config["logging"]` — a `KeyError` when
the key is absent — and call `setup_logging` with its two fields. -/
def mainRun : Option Config → World → RunResult
  | none, w => ⟨w, none⟩
  | some cfg, w =>
    let r := runStack cfg.directories (printHeader cfg w)
    match r.error with
    | some _ => r
    | none =>
      match cfg.logging with
      | none => ⟨r.world, some "KeyError: logging"⟩
      | some lg => setup_logging lg.log_file_path lg.root_log_level r.world

/-- `main` (lines 155-210 of the script): load the YAML file, then run
the pipeline body. -/
def mainProgram (parse : String → ParseOutcome) (file_path : String) (w : World) : RunResult :=
  let res := read_yaml_file parse file_path w
  mainRun res.1 res.2

/-- Modelled from the specification's words for the template
substitution ("the emitted file equals the template content with every
occurrence of the token `${LOG_FILE_PATH}` replaced verbatim by
`logging.log_file_path` and every occurrence of `${ROOT_LOG_LEVEL}`
replaced verbatim by `logging.root_log_level`, with no other content
altered"): a single left-to-right scan of the template in which each
occurrence of either token is replaced by its value — inserted values are
never rescanned, so no content other than the template's own token
occurrences is altered.  (The two tokens cannot overlap each other, so
this simultaneous reading is unambiguous.)  Fuel-indexed as above. -/
def substBothFuel : Nat → List Char → List Char → List Char → List Char → List Char → List Char
  | 0, s, _, _, _, _ => s
  | f + 1, s, p1, r1, p2, r2 =>
    match s with
    | [] => []
    | c :: rest =>
      if p1.isPrefixOf (c :: rest) && !p1.isEmpty then
        r1 ++ substBothFuel f ((c :: rest).drop p1.length) p1 r1 p2 r2
      else if p2.isPrefixOf (c :: rest) && !p2.isEmpty then
        r2 ++ substBothFuel f ((c :: rest).drop p2.length) p1 r1 p2 r2
      else c :: substBothFuel f rest p1 r1 p2 r2

/-- Simultaneous verbatim substitution of the two placeholder tokens, as
the specification describes the emitted logging configuration. -/
def specSimultaneousSubst (template v1 v2 : String) : String :=
  String.mk (substBothFuel template.data.length template.data tokLFP.data v1.data tokRLL.data v2.data)

/-! ## Size lemmas: the loop removes exactly one node per iteration -/

theorem listSize_append (xs ys : List Node) :
    listSize (xs ++ ys) = listSize xs + listSize ys := by
  induction xs with
  | nil => simp [listSize]
  | cons c rest ih => simp [listSize, ih]; omega

theorem nodeSize_renameNode (p : String) (c : Node) :
    nodeSize (renameNode p c) = nodeSize c := by
  cases c
  rfl

theorem listSize_renameChildren (p : String) (cs : List Node) :
    listSize (renameChildren p cs) = listSize cs := by
  induction cs with
  | nil => rfl
  | cons c rest ih =>
    simp only [renameChildren, List.map] at *
    simp [listSize, nodeSize_renameNode, ih]

theorem listSize_childPush (d : Node) : listSize (childPush d) + 1 = nodeSize d := by
  cases d with
  | mk n t cs =>
    cases cs with
    | none => rfl
    | some l =>
      simp [childPush, Node.children, Node.name, nodeSize, optSize, listSize,
        listSize_renameChildren]

theorem nodeSize_pos (d : Node) : 1 ≤ nodeSize d := by
  cases d with
  | mk n t cs => simp [nodeSize]

theorem listSize_eq_zero {s : List Node} (h : listSize s = 0) : s = [] := by
  cases s with
  | nil => rfl
  | cons c rest =>
    exfalso
    have hc := nodeSize_pos c
    simp [listSize] at h
    omega

/-! ## The work-stack loop realizes the declarative flattening semantics -/

theorem flatTrace_renameNode (p : String) (c : Node) :
    flatTrace none (renameNode p c) = flatTrace (some p) c := by
  cases c with
  | mk n t cs => simp [flatTrace, renameNode]

theorem flatTraceRev_append (pre : Option String) (xs ys : List Node) :
    flatTraceRev pre (xs ++ ys) = flatTraceRev pre ys ++ flatTraceRev pre xs := by
  induction xs with
  | nil => simp [flatTraceRev]
  | cons c rest ih => simp [flatTraceRev, ih]

theorem flatTraceRev_renameChildren (p : String) (cs : List Node) :
    flatTraceRev none (renameChildren p cs) = flatTraceRev (some p) cs := by
  induction cs with
  | nil => rfl
  | cons c rest ih =>
    simp only [renameChildren, List.map] at *
    simp [flatTraceRev, flatTrace_renameNode, ih]

theorem flatTraceRev_childPush (d : Node) :
    flatTraceRev none (childPush d) = flatTraceOpt (some d.name) d.children := by
  cases d with
  | mk n t cs =>
    cases cs with
    | none => rfl
    | some l =>
      simp [childPush, Node.children, Node.name, flatTraceOpt, flatTraceRev_renameChildren]

theorem flatTrace_none_eq (d : Node) :
    flatTrace none d = actOf d ++ flatTraceOpt (some d.name) d.children := by
  cases d with
  | mk n t cs => simp [flatTrace, actOf, Node.name, Node.type, Node.children]

/-- Main loop characterization: with sufficient fuel, the work-stack loop
issues exactly the creation calls of the declarative flattening
semantics, stack entries processed last-to-first. -/
theorem processStackFuel_eq :
    ∀ (f : Nat) (s : List Node), listSize s ≤ f →
      processStackFuel f s = flatTraceRev none s := by
  intro f
  induction f with
  | zero =>
    intro s h
    have hs : s = [] := listSize_eq_zero (Nat.le_zero.mp h)
    subst hs
    rfl
  | succ f ih =>
    intro s h
    rcases s.eq_nil_or_concat with rfl | ⟨L, d, rfl⟩
    · rfl
    · simp only [List.concat_eq_append] at h ⊢
      have hsize : listSize (L ++ childPush d) + 1 = listSize (L ++ [d]) := by
        rw [listSize_append, listSize_append]
        have hd := listSize_childPush d
        simp [listSize]
        omega
      have hle : listSize (L ++ childPush d) ≤ f := by omega
      simp only [processStackFuel, List.getLast?_concat, List.dropLast_concat]
      rw [ih _ hle, flatTraceRev_append none L (childPush d), flatTraceRev_append none L [d],
        flatTraceRev_childPush]
      simp [flatTraceRev, flatTrace_none_eq]

/-- The loop of `main`, started on the declared `directories` stack,
issues exactly the flattened creation calls. -/
theorem processStack_eq (s : List Node) : processStack s = flatTraceRev none s :=
  processStackFuel_eq (listSize s) s (Nat.le_refl _)

/-! ## Association-list lemmas for `setFile` -/

theorem lookup_cons (q k v : String) (rest : List (String × String)) :
    List.lookup q ((k, v) :: rest) = if q = k then some v else List.lookup q rest := by
  simp only [List.lookup]
  split <;> rename_i h
  · simp at h
    simp [h]
  · simp at h
    simp [h]

theorem lookup_append_single_self (files : List (String × String)) (p c : String)
    (h : files.lookup p = none) : (files ++ [(p, c)]).lookup p = some c := by
  induction files with
  | nil => simp [lookup_cons]
  | cons kv rest ih =>
    cases kv with
    | mk k v =>
      rw [lookup_cons] at h
      rw [List.cons_append, lookup_cons]
      by_cases hk : p = k
      · rw [if_pos hk] at h
        cases h
      · rw [if_neg hk] at h
        rw [if_neg hk]
        exact ih h

theorem lookup_append_single_other (files : List (String × String)) (p c q : String)
    (hq : q ≠ p) : (files ++ [(p, c)]).lookup q = files.lookup q := by
  induction files with
  | nil => simp [lookup_cons, hq]
  | cons kv rest ih =>
    cases kv with
    | mk k v =>
      rw [List.cons_append, lookup_cons, lookup_cons]
      by_cases hk : q = k
      · rw [if_pos hk, if_pos hk]
      · rw [if_neg hk, if_neg hk]
        exact ih

theorem lookup_filter_self (files : List (String × String)) (p : String) :
    (files.filter (fun kv => kv.1 != p)).lookup p = none := by
  induction files with
  | nil => simp
  | cons kv rest ih =>
    cases kv with
    | mk k v =>
      rw [List.filter_cons]
      by_cases hk : k = p
      · have hcond : ¬(((k, v).1 != p) = true) := by simp [hk]
        rw [if_neg hcond]
        exact ih
      · have hcond : ((k, v).1 != p) = true := by simpa using hk
        rw [if_pos hcond, lookup_cons]
        have hpk : p ≠ k := fun e => hk e.symm
        rw [if_neg hpk]
        exact ih

theorem lookup_filter_ne (files : List (String × String)) (p q : String)
    (hq : q ≠ p) :
    (files.filter (fun kv => kv.1 != p)).lookup q = files.lookup q := by
  induction files with
  | nil => simp
  | cons kv rest ih =>
    cases kv with
    | mk k v =>
      rw [List.filter_cons, lookup_cons]
      by_cases hk : k = p
      · have hcond : ¬(((k, v).1 != p) = true) := by simp [hk]
        have hqk : q ≠ k := by rw [hk]; exact hq
        rw [if_neg hcond, if_neg hqk]
        exact ih
      · have hcond : ((k, v).1 != p) = true := by simpa using hk
        rw [if_pos hcond, lookup_cons]
        by_cases hqk : q = k
        · rw [if_pos hqk, if_pos hqk]
        · rw [if_neg hqk, if_neg hqk]
          exact ih

theorem setFile_lookup_self (files : List (String × String)) (p c : String) :
    (setFile files p c).lookup p = some c := by
  unfold setFile
  exact lookup_append_single_self _ p c (lookup_filter_self files p)

theorem setFile_lookup_other (files : List (String × String)) (p c q : String)
    (hq : q ≠ p) : (setFile files p c).lookup q = files.lookup q := by
  unfold setFile
  rw [lookup_append_single_other _ p c q hq, lookup_filter_ne files p q hq]

/-! ## Claim theorems -/

/-- C4: for every File node whose target path already exists as a file,
the write is aborted: the filesystem (in particular the existing file's
content) is left unchanged, the condition is reported with a printed
message, and no error is raised. -/
theorem existing_file_write_aborted (p : String) (w : World) (h : isfile w.fs p = true) :
    create_empty_file p w =
      ⟨{ w with out := w.out ++ ["file " ++ p ++ " exists. operation aborted."] }, none⟩ := by
  simp [create_empty_file, h]

/-- Witness for C4 at a concrete filesystem holding `f.py`. -/
theorem existing_file_write_aborted_witness :
    create_empty_file "f.py" ⟨⟨[], [("f.py", "old content")]⟩, []⟩
      = ⟨⟨⟨[], [("f.py", "old content")]⟩, ["file f.py exists. operation aborted."]⟩, none⟩ :=
  existing_file_write_aborted "f.py" ⟨⟨[], [("f.py", "old content")]⟩, []⟩ (by decide)

/-- C5: for every Directory node whose target path already exists as a
directory, the create operation is a no-op on the filesystem that reports
the condition with a printed message and raises no error. -/
theorem existing_directory_noop (p : String) (w : World) (h : isdir w.fs p = true) :
    create_directory p w =
      ⟨{ w with out := w.out ++ ["directory " ++ p ++ " exists. operation aborted."] }, none⟩ := by
  simp [create_directory, h]

/-- Witness for C5 at a concrete filesystem holding `build`, addressed
through the `./`-prefixed path `main` passes. -/
theorem existing_directory_noop_witness :
    create_directory "./build" ⟨⟨["build"], []⟩, ["earlier"]⟩
      = ⟨⟨⟨["build"], []⟩, ["earlier", "directory ./build exists. operation aborted."]⟩, none⟩ :=
  existing_directory_noop "./build" ⟨⟨["build"], []⟩, ["earlier"]⟩ (by decide)

/-- C8: when the template is readable but the target logging directory
`configs/logging` does not exist, `setup_logging` is skipped silently:
no file is written, nothing is printed, and no error is raised — the
whole state is returned unchanged. -/
theorem logging_dir_missing_skips_silently (lfp rll T : String) (w : World)
    (hT : w.fs.files.lookup "logging_config_template.json" = some T)
    (hdir : isdir w.fs "configs/logging" = false) :
    setup_logging lfp rll w = ⟨w, none⟩ := by
  simp [setup_logging, hT, hdir]

/-- Witness for C8: template present, `configs/logging` absent. -/
theorem logging_dir_missing_skips_silently_witness :
    setup_logging "/var/log/app.log" "DEBUG"
        ⟨⟨["configs"], [("logging_config_template.json", "lvl=$\x7bROOT_LOG_LEVEL\x7d")]⟩, ["x"]⟩
      = ⟨⟨⟨["configs"], [("logging_config_template.json", "lvl=$\x7bROOT_LOG_LEVEL\x7d")]⟩, ["x"]⟩,
          none⟩ :=
  logging_dir_missing_skips_silently "/var/log/app.log" "DEBUG"
    "lvl=$\x7bROOT_LOG_LEVEL\x7d"
    ⟨⟨["configs"], [("logging_config_template.json", "lvl=$\x7bROOT_LOG_LEVEL\x7d")]⟩, ["x"]⟩
    rfl (by decide)

/-- C9 (counterexample): the claim reads the emitted file as the template
with both tokens replaced verbatim and "no other content altered"
(`specSimultaneousSubst`).  The script instead applies two sequential
`str.replace` calls, so when `log_file_path` itself contains the token
`${ROOT_LOG_LEVEL}`, the value inserted by the first replacement is
altered by the second: with template `"${LOG_FILE_PATH}"`,
`log_file_path = "${ROOT_LOG_LEVEL}"` and `root_log_level = "INFO"`, the
script writes `"INFO"` while the claim's reading demands
`"${ROOT_LOG_LEVEL}"`. -/
theorem simultaneous_subst_counterexample :
    ((setup_logging "$\x7bROOT_LOG_LEVEL\x7d" "INFO"
        ⟨⟨["configs/logging"], [("logging_config_template.json", "$\x7bLOG_FILE_PATH\x7d")]⟩,
          []⟩).world.fs.files.lookup "configs/logging/logging_config.json")
      = some "INFO" ∧
    specSimultaneousSubst "$\x7bLOG_FILE_PATH\x7d" "$\x7bROOT_LOG_LEVEL\x7d" "INFO"
      = "$\x7bROOT_LOG_LEVEL\x7d" ∧
    ("INFO" : String) ≠ "$\x7bROOT_LOG_LEVEL\x7d" := by
  decide

/-- C9 (amended): given a readable template and a pre-existing
`configs/logging` directory, `setup_logging` raises no error and writes
to the fixed path `configs/logging/logging_config.json` exactly the
template content transformed by two successive literal replacements —
every occurrence of `${LOG_FILE_PATH}` replaced by `log_file_path`
first, then every occurrence of `${ROOT_LOG_LEVEL}` in that result
replaced by `root_log_level` — while every other file and the directory
set are left unchanged (this coincides with the claim's simultaneous
reading whenever the substituted values do not themselves produce the
second token). -/
theorem setup_logging_sequential_subst (lfp rll T : String) (w : World)
    (hT : w.fs.files.lookup "logging_config_template.json" = some T)
    (hdir : isdir w.fs "configs/logging" = true) :
    (setup_logging lfp rll w).error = none ∧
    (setup_logging lfp rll w).world.fs.files.lookup "configs/logging/logging_config.json"
      = some (pyReplace (pyReplace T tokLFP lfp) tokRLL rll) ∧
    (∀ q, q ≠ "configs/logging/logging_config.json" →
      (setup_logging lfp rll w).world.fs.files.lookup q = w.fs.files.lookup q) ∧
    (setup_logging lfp rll w).world.fs.dirs = w.fs.dirs ∧
    (setup_logging lfp rll w).world.out
      = w.out ++ ["logging configuration saved at configs/logging/logging_config.json"] := by
  have hstep : setup_logging lfp rll w
      = ⟨{ fs := { dirs := w.fs.dirs,
                   files := setFile w.fs.files "configs/logging/logging_config.json"
                     (pyReplace (pyReplace T tokLFP lfp) tokRLL rll) },
           out := w.out ++
             ["logging configuration saved at configs/logging/logging_config.json"] },
          none⟩ := by
    simp [setup_logging, hT, hdir]
  rw [hstep]
  refine ⟨rfl, ?_, ?_, rfl, rfl⟩
  · exact setFile_lookup_self w.fs.files "configs/logging/logging_config.json" _
  · intro q hq
    exact setFile_lookup_other w.fs.files "configs/logging/logging_config.json" _ q hq

/-- Witness for the amended C9: the spec's own example values, with the
written content evaluated concretely. -/
theorem setup_logging_sequential_subst_witness :
    (setup_logging "/var/log/app.log" "DEBUG"
        ⟨⟨["configs/logging"],
          [("logging_config_template.json",
            "lvl=$\x7bROOT_LOG_LEVEL\x7d file=$\x7bLOG_FILE_PATH\x7d")]⟩, []⟩).error = none ∧
    ((setup_logging "/var/log/app.log" "DEBUG"
        ⟨⟨["configs/logging"],
          [("logging_config_template.json",
            "lvl=$\x7bROOT_LOG_LEVEL\x7d file=$\x7bLOG_FILE_PATH\x7d")]⟩,
          []⟩).world.fs.files.lookup "configs/logging/logging_config.json")
      = some "lvl=DEBUG file=/var/log/app.log" := by
  have h := setup_logging_sequential_subst "/var/log/app.log" "DEBUG"
    "lvl=$\x7bROOT_LOG_LEVEL\x7d file=$\x7bLOG_FILE_PATH\x7d"
    ⟨⟨["configs/logging"],
      [("logging_config_template.json",
        "lvl=$\x7bROOT_LOG_LEVEL\x7d file=$\x7bLOG_FILE_PATH\x7d")]⟩, []⟩
    rfl (by decide)
  refine ⟨h.1, ?_⟩
  rw [h.2.1]
  decide

/-- C7: for an input path that does not resolve to a file, and for a file
whose content fails to parse, the loader reports the condition with a
printed message, returns the empty result `none` (never a partial
document), and does not raise — `read_yaml_file` is a total function into
`Option Config × World`, so the failure is non-fatal to the process by
construction. -/
theorem loader_failure_reports_and_returns_none (parse : String → ParseOutcome)
    (path : String) (w : World)
    (h : w.fs.files.lookup path = none ∨
         ∃ c e, w.fs.files.lookup path = some c ∧ parse c = ParseOutcome.err e) :
    (read_yaml_file parse path w).1 = none ∧
    (read_yaml_file parse path w).2.fs = w.fs ∧
    ((w.fs.files.lookup path = none ∧
        (read_yaml_file parse path w).2.out
          = w.out ++ ["Error: The file " ++ path ++ " was not found."]) ∨
     (∃ c e, w.fs.files.lookup path = some c ∧ parse c = ParseOutcome.err e ∧
        (read_yaml_file parse path w).2.out
          = w.out ++ ["Error parsing YAML file: " ++ e])) := by
  rcases h with h | ⟨c, e, hc, he⟩
  · refine ⟨?_, ?_, Or.inl ⟨h, ?_⟩⟩ <;> simp [read_yaml_file, h]
  · refine ⟨?_, ?_, Or.inr ⟨c, e, hc, he, ?_⟩⟩ <;> simp [read_yaml_file, hc, he]

/-- Witness for C7 at a concrete unparsable file. -/
theorem loader_failure_reports_and_returns_none_witness :
    (read_yaml_file (fun s => ParseOutcome.err ("while scanning " ++ s)) "spec.yaml"
        ⟨⟨[], [("spec.yaml", "not yaml")]⟩, []⟩).1 = none ∧
    (read_yaml_file (fun s => ParseOutcome.err ("while scanning " ++ s)) "spec.yaml"
        ⟨⟨[], [("spec.yaml", "not yaml")]⟩, []⟩).2.fs = ⟨[], [("spec.yaml", "not yaml")]⟩ ∧
    ((⟨[], [("spec.yaml", "not yaml")]⟩ : FS).files.lookup "spec.yaml" = none ∧
        (read_yaml_file (fun s => ParseOutcome.err ("while scanning " ++ s)) "spec.yaml"
            ⟨⟨[], [("spec.yaml", "not yaml")]⟩, []⟩).2.out
          = [] ++ ["Error: The file " ++ "spec.yaml" ++ " was not found."] ∨
     (∃ c e, (⟨[], [("spec.yaml", "not yaml")]⟩ : FS).files.lookup "spec.yaml" = some c ∧
        (fun s => ParseOutcome.err ("while scanning " ++ s)) c = ParseOutcome.err e ∧
        (read_yaml_file (fun s => ParseOutcome.err ("while scanning " ++ s)) "spec.yaml"
            ⟨⟨[], [("spec.yaml", "not yaml")]⟩, []⟩).2.out
          = [] ++ ["Error parsing YAML file: " ++ e])) :=
  loader_failure_reports_and_returns_none (fun s => ParseOutcome.err ("while scanning " ++ s))
    "spec.yaml" ⟨⟨[], [("spec.yaml", "not yaml")]⟩, []⟩
    (Or.inr ⟨"not yaml", "while scanning not yaml", rfl, rfl⟩)

/-- C2: three top-level child-less nodes declared in order A, B, C have
their creation calls issued in the reverse order C, B, A (last-in
first-out stack semantics). -/
theorem siblings_processed_in_reverse_order (a b c : Node)
    (ha : a.children = none) (hb : b.children = none) (hc : c.children = none) :
    processStack [a, b, c] = actOf c ++ actOf b ++ actOf a := by
  rw [processStack_eq]
  simp [flatTraceRev, flatTrace_none_eq, ha, hb, hc, flatTraceOpt]

/-- Witness for C2: three concrete directory nodes A, B, C created as
C, B, A. -/
theorem siblings_processed_in_reverse_order_witness :
    processStack
        [Node.mk "A" "directory" none, Node.mk "B" "directory" none,
         Node.mk "C" "directory" none]
      = [FsAction.createDir "./C", FsAction.createDir "./B", FsAction.createDir "./A"] := by
  rw [siblings_processed_in_reverse_order (Node.mk "A" "directory" none)
    (Node.mk "B" "directory" none) (Node.mk "C" "directory" none) rfl rfl rfl]
  decide

/-- C3: the work-stack loop issues exactly the creation calls of the
declarative flattening semantics `flatTraceRev`/`flatTrace`, in which a
node below a parent whose flattened name is `p` is created at
`p ++ "/" ++ name` — so each child's created path is its parent's
(already flattened) name joined with its declared name by a single
`"/"`, and the rule composes transitively for grandchildren.  The second
conjunct spells out that path equation for an arbitrary node under an
arbitrary flattened parent. -/
theorem flattened_paths_characterization :
    (∀ s : List Node, processStack s = flatTraceRev none s) ∧
    (∀ (p nm ty : String) (cs : Option (List Node)),
      flatTrace (some p) (Node.mk nm ty cs)
        = actOfFull (p ++ "/" ++ nm) ty ++ flatTraceOpt (some (p ++ "/" ++ nm)) cs) := by
  refine ⟨processStack_eq, ?_⟩
  intro p nm ty cs
  simp [flatTrace]

/-- C10: for a node whose `type` is outside {"directory", "file"} but
which carries a `children` list, no creation call is issued for the node
itself, yet its children are renamed with the parent prefix and pushed,
so the whole subtree is still processed: the trace of the node equals
the trace of its renamed children, i.e. the flattening semantics of the
children under the parent's name. -/
theorem unrecognized_type_children_still_processed (n : Node) (cs : List Node)
    (hd : n.type ≠ "directory") (hf : n.type ≠ "file") (hc : n.children = some cs) :
    processStack [n] = processStack (renameChildren n.name cs) ∧
    processStack [n] = flatTraceRev (some n.name) cs := by
  have h2 : processStack (renameChildren n.name cs) = flatTraceRev (some n.name) cs := by
    rw [processStack_eq, flatTraceRev_renameChildren]
  have h1 : processStack [n] = flatTraceRev (some n.name) cs := by
    rw [processStack_eq]
    simp [flatTraceRev, flatTrace_none_eq, actOf, actOfFull, hd, hf, hc, flatTraceOpt]
  exact ⟨h1.trans h2.symm, h1⟩

/-- Witness for C10: a `symlink`-typed node whose directory child is
still materialized at the flattened path `x/c`. -/
theorem unrecognized_type_children_still_processed_witness :
    processStack [Node.mk "x" "symlink" (some [Node.mk "c" "directory" none])]
      = processStack (renameChildren "x" [Node.mk "c" "directory" none]) ∧
    processStack [Node.mk "x" "symlink" (some [Node.mk "c" "directory" none])]
      = flatTraceRev (some "x") [Node.mk "c" "directory" none] :=
  unrecognized_type_children_still_processed
    (Node.mk "x" "symlink" (some [Node.mk "c" "directory" none]))
    [Node.mk "c" "directory" none] (by decide) (by decide) rfl

/-- C6: a node whose `type` is neither `"directory"` nor `"file"` is
silently skipped: processing it performs no creation call of its own —
the run continues exactly as if only its (renamed) children had been on
the stack — and when it has no children its entire processing leaves the
filesystem and the output untouched and raises no error. -/
theorem unrecognized_type_silently_skipped (n : Node) (w : World)
    (hd : n.type ≠ "directory") (hf : n.type ≠ "file") :
    runStack [n] w = runStack (childPush n) w ∧
    (n.children = none → runStack [n] w = ⟨w, none⟩) := by
  cases n with
  | mk nm t cs =>
    simp only [Node.type] at hd hf
    have hsz : listSize (childPush (Node.mk nm t cs)) = optSize cs := by
      have h := listSize_childPush (Node.mk nm t cs)
      simp [nodeSize] at h
      omega
    constructor
    · show runStackFuel (optSize cs + 1) [Node.mk nm t cs] w
        = runStackFuel (listSize (childPush (Node.mk nm t cs)))
            (childPush (Node.mk nm t cs)) w
      rw [hsz]
      simp [runStackFuel, Node.type, hd, hf]
    · intro hcs
      simp only [Node.children] at hcs
      subst hcs
      show runStackFuel (optSize none + 1) [Node.mk nm t none] w = ⟨w, none⟩
      simp [runStackFuel, Node.type, hd, hf, childPush, Node.children, optSize]

/-- Witness for C6: a childless `symlink` node leaves the state
untouched, and a `symlink` node with children behaves as its renamed
children alone. -/
theorem unrecognized_type_silently_skipped_witness :
    (runStack [Node.mk "ln" "symlink" none] ⟨⟨["d"], [("f", "c")]⟩, ["o"]⟩
      = runStack (childPush (Node.mk "ln" "symlink" none)) ⟨⟨["d"], [("f", "c")]⟩, ["o"]⟩) ∧
    (runStack [Node.mk "ln" "symlink" none] ⟨⟨["d"], [("f", "c")]⟩, ["o"]⟩
      = ⟨⟨⟨["d"], [("f", "c")]⟩, ["o"]⟩, none⟩) :=
  ⟨(unrecognized_type_silently_skipped (Node.mk "ln" "symlink" none)
      ⟨⟨["d"], [("f", "c")]⟩, ["o"]⟩ (by decide) (by decide)).1,
   (unrecognized_type_silently_skipped (Node.mk "ln" "symlink" none)
      ⟨⟨["d"], [("f", "c")]⟩, ["o"]⟩ (by decide) (by decide)).2 rfl⟩

/-- C1 (counterexample): a document with valid `project` and
`directories` sections but no `logging` key does not complete without
failure — `main` raises a `KeyError` reading `config["logging"]` after
the loop. -/
theorem missing_logging_key_raises :
    (mainRun (some ⟨⟨"proj", "1.0", "demo"⟩, [Node.mk "src" "directory" none], none⟩)
        ⟨⟨[], []⟩, []⟩).error = some "KeyError: logging" := by
  decide

/-- C1 (amended): for a document that parses successfully with valid
`project` and `directories` sections but no `logging` key, the run still
materializes the full directory tree (the loop completes, producing the
final world `w'`), but it then fails with a `KeyError` when the
`logging` section is read, so the logging-configuration step is never
performed and the run does not complete without failure. -/
theorem missing_logging_fails_after_materialization (cfg : Config) (w w' : World)
    (hlog : cfg.logging = none)
    (hrun : runStack cfg.directories (printHeader cfg w) = ⟨w', none⟩) :
    mainRun (some cfg) w = ⟨w', some "KeyError: logging"⟩ := by
  simp [mainRun, hrun, hlog]

/-- Witness for the amended C1: a concrete one-directory document whose
tree is created (directory `lib` exists in the final state) before the
`KeyError` is raised. -/
theorem missing_logging_fails_after_materialization_witness :
    mainRun (some ⟨⟨"n", "2", "d"⟩, [Node.mk "lib" "directory" none], none⟩) ⟨⟨[], []⟩, []⟩
      = ⟨⟨⟨["lib"], []⟩,
          ["Successfully loaded configuration:", "------------------------------",
           "Project name: n", "Project version: 2", "Project description: d",
           "created directory ./lib."]⟩, some "KeyError: logging"⟩ :=
  missing_logging_fails_after_materialization
    ⟨⟨"n", "2", "d"⟩, [Node.mk "lib" "directory" none], none⟩ ⟨⟨[], []⟩, []⟩
    ⟨⟨["lib"], []⟩,
      ["Successfully loaded configuration:", "------------------------------",
       "Project name: n", "Project version: 2", "Project description: d",
       "created directory ./lib."]⟩
    rfl (by decide)

end ProjectBuilder
